import Mathlib

/-!
Shallow embedding of the coalescing/debouncing invoker `til::throttled_func`
(src/inc/til/throttled_func.h) and of the persisted state store
`ApplicationState` (src/cascadia/TerminalSettingsModel/ApplicationState.cpp
and .h), together with theorems settling the spec claims about them.

Modelling conventions:
- the mutex-guarded mutable state of a C++ object becomes a Lean structure,
  and each member function becomes a pure function from the structure to an
  updated structure (the lock makes each C++ member function atomic with
  respect to the others, so a member-function call is one step);
- the Windows threadpool one-shot timer becomes an `Option Nat` absolute due
  time (`none` = not armed); arming via `SetThreadpoolTimerEx` at wall time
  `t` with relative due time `d` sets it to `some (t + d)`;
- invocations of the wrapped `_func` are recorded in a `calls` trace list so
  that theorems can speak about which arguments the function was invoked with;
- a C++ exception that a `try/CATCH_LOG()` block swallows is modelled by the
  function returning with the state it had when the exception was raised;
- the backing file of `ApplicationState` is carried inside the structure as
  an `Option FileContent` field (the file system world at `_path`).
-/

namespace til

/-- `til::details::throttled_func_storage<Args...>`: a mutex plus
`std::optional<std::tuple<Args...>> _pendingRunArgs`, the single
pending-arguments slot. -/
structure throttled_func_storage (α : Type) : Type where
  pendingRunArgs : Option α
deriving Repr, DecidableEq

/-- `throttled_func_storage::emplace(args...)`: under the lock, records
whether a value was already buffered, overwrites the slot with the new
arguments, and returns the old `has_value()` flag together with the new
storage state. -/
def throttled_func_storage.emplace (s : throttled_func_storage α) (a : α) :
    Bool × throttled_func_storage α :=
  (s.pendingRunArgs.isSome, ⟨some a⟩)

/-- `throttled_func_storage::modify_pending(f)`: under the lock, if a tuple
is buffered, applies `f` to it in place; otherwise does nothing. -/
def throttled_func_storage.modify_pending (s : throttled_func_storage α) (f : α → α) :
    throttled_func_storage α :=
  match s.pendingRunArgs with
  | some a => ⟨some (f a)⟩
  | none => s

/-- `throttled_func_storage::extract()`: swaps the slot with an empty
optional and returns `args.value()`. The returned `Option` is the swapped-out
optional; `value()` on an empty optional raises `std::bad_optional_access`,
which the caller's `CATCH_LOG()` swallows, so the `none` case is returned
as-is to let the caller model that exception path. -/
def throttled_func_storage.extract (s : throttled_func_storage α) :
    Option α × throttled_func_storage α :=
  (s.pendingRunArgs, ⟨none⟩)

/-- `til::details::throttled_func_storage<>` (zero-argument specialization):
a single atomic pending flag `_isPending`. -/
structure throttled_func_storage0 : Type where
  isPending : Bool
deriving Repr, DecidableEq

/-- Zero-argument `emplace()`: `_isPending.exchange(true)` — returns the old
flag and sets it to `true`. -/
def throttled_func_storage0.emplace (s : throttled_func_storage0) :
    Bool × throttled_func_storage0 :=
  (s.isPending, ⟨true⟩)

/-- Zero-argument `reset()`: `_isPending.store(false)`. -/
def throttled_func_storage0.reset (_s : throttled_func_storage0) :
    throttled_func_storage0 :=
  ⟨false⟩

/-- `til::throttled_func<false, Args...>` (trailing mode): the configured
delay, the storage slot, the one-shot threadpool timer (absolute due time
when armed), and the trace of arguments `_func` has been invoked with. -/
structure throttled_func (α : Type) : Type where
  delay : Nat
  storage : throttled_func_storage α
  timerDue : Option Nat
  calls : List α
deriving Repr, DecidableEq

/-- A freshly constructed trailing `throttled_func`: empty slot, timer
created but not armed, no invocations yet. -/
def throttled_func.init (delay : Nat) : throttled_func α :=
  ⟨delay, ⟨none⟩, none, []⟩

/-- Trailing `throttled_func::operator()(args...)` submitted at wall time
`t`: `if (!_storage.emplace(args...)) _fire();` — in trailing mode `_fire`
only arms the timer (`SetThreadpoolTimerEx` with relative due time
`_delay`). -/
def throttled_func.submit (tf : throttled_func α) (t : Nat) (a : α) :
    throttled_func α :=
  let e := tf.storage.emplace a
  if e.1 then { tf with storage := e.2 }
  else { tf with storage := e.2, timerDue := some (t + tf.delay) }

/-- Trailing `throttled_func::modify_pending(f)`: forwards to the storage. -/
def throttled_func.modifyPending (tf : throttled_func α) (f : α → α) :
    throttled_func α :=
  { tf with storage := tf.storage.modify_pending f }

/-- Trailing `throttled_func::_timer_callback`: extracts the buffered
arguments and applies `_func` to them. If the slot was empty, `extract`'s
`value()` raises `std::bad_optional_access`, which the surrounding
`try/CATCH_LOG()` swallows: `_func` is not invoked. The one-shot timer is no
longer armed once the callback runs. -/
def throttled_func.timerCallback (tf : throttled_func α) : throttled_func α :=
  let e := tf.storage.extract
  match e.1 with
  | some a => { tf with storage := e.2, timerDue := none, calls := tf.calls ++ [a] }
  | none => { tf with storage := e.2, timerDue := none }

/-- `til::throttled_func<true>` = `til::throttled_func_leading` (leading
mode, zero arguments): `calls` counts invocations of the wrapped `_func`. -/
structure throttled_func_leading : Type where
  delay : Nat
  storage : throttled_func_storage0
  timerDue : Option Nat
  calls : Nat
deriving Repr, DecidableEq

/-- A freshly constructed leading `throttled_func`. -/
def throttled_func_leading.init (delay : Nat) : throttled_func_leading :=
  ⟨delay, ⟨false⟩, none, 0⟩

/-- Leading `throttled_func::operator()()` submitted at wall time `t`:
`if (!_storage.emplace()) _fire();` — in leading mode `_fire` invokes
`_func()` immediately and then arms the timer. -/
def throttled_func_leading.submit (tf : throttled_func_leading) (t : Nat) :
    throttled_func_leading :=
  let e := tf.storage.emplace
  if e.1 then { tf with storage := e.2 }
  else { tf with storage := e.2, calls := tf.calls + 1, timerDue := some (t + tf.delay) }

/-- Leading `throttled_func::_timer_callback`: `self._storage.reset()` —
clears the suppression flag and nothing else; `_func` is not invoked. -/
def throttled_func_leading.timerCallback (tf : throttled_func_leading) :
    throttled_func_leading :=
  { tf with storage := tf.storage.reset, timerDue := none }

/-- One interleaving step against a trailing `throttled_func`: a submission
from some thread, a `modify_pending`, or the timer firing. -/
inductive TfOp (α : Type) : Type where
  | submit (t : Nat) (a : α) : TfOp α
  | modifyPending (f : α → α) : TfOp α
  | fire : TfOp α

/-- Apply one interleaving step. -/
def throttled_func.step (tf : throttled_func α) : TfOp α → throttled_func α
  | TfOp.submit t a => tf.submit t a
  | TfOp.modifyPending f => tf.modifyPending f
  | TfOp.fire => tf.timerCallback

/-- Apply a whole interleaving of submits, modifies and fires. -/
def throttled_func.run (tf : throttled_func α) (ops : List (TfOp α)) :
    throttled_func α :=
  ops.foldl throttled_func.step tf

end til

namespace TerminalSettingsModel

/-- The guarded state `ApplicationState::state_t`: the three boolean fields
generated by `MTSM_APPLICATION_STATE_FIELDS` (each defaulted to `false` in
the field declaration `type name{ __VA_ARGS__ }`), plus the
`_writeScheduled` bookkeeping flag. -/
structure state_t : Type where
  CloseAllTabsWarningDismissed : Bool
  LargePasteWarningDismissed : Bool
  MultiLinePasteWarningDismissed : Bool
  writeScheduled : Bool
deriving Repr, DecidableEq

/-- The default-constructed `state_t`: every field at its documented default
(`false` for all three), write not scheduled. -/
def state_t.default : state_t :=
  ⟨false, false, false, false⟩

/-- The three field names generated by `MTSM_APPLICATION_STATE_FIELDS`. -/
inductive FieldName : Type where
  | closeAllTabsWarningDismissed
  | largePasteWarningDismissed
  | multiLinePasteWarningDismissed
deriving Repr, DecidableEq

/-- `state->name = value` for a given generated field. -/
def state_t.setName (st : state_t) : FieldName → Bool → state_t
  | FieldName.closeAllTabsWarningDismissed, v => { st with CloseAllTabsWarningDismissed := v }
  | FieldName.largePasteWarningDismissed, v => { st with LargePasteWarningDismissed := v }
  | FieldName.multiLinePasteWarningDismissed, v => { st with MultiLinePasteWarningDismissed := v }

/-- `return state->name` for a given generated field (the generated const
getter under the shared lock). -/
def state_t.getName (st : state_t) : FieldName → Bool
  | FieldName.closeAllTabsWarningDismissed => st.CloseAllTabsWarningDismissed
  | FieldName.largePasteWarningDismissed => st.LargePasteWarningDismissed
  | FieldName.multiLinePasteWarningDismissed => st.MultiLinePasteWarningDismissed

/-- The three persisted field values of a `state_t`, without the
`_writeScheduled` bookkeeping flag (for stating field-identity theorems). -/
def state_t.fieldsOf (st : state_t) : Bool × Bool × Bool :=
  (st.CloseAllTabsWarningDismissed, st.LargePasteWarningDismissed,
    st.MultiLinePasteWarningDismissed)

/-- A parsed `state.json` root object: for each generated key, `some v` when
the key is present with value `v`, `none` when absent. -/
structure JsonRoot : Type where
  closeAllTabsWarningDismissedKey : Option Bool
  largePasteWarningDismissedKey : Option Bool
  multiLinePasteWarningDismissedKey : Option Bool
deriving Repr, DecidableEq

/-- `JsonUtils::GetValueForKey(root, key, target)`: overwrites `target` when
the key is present, leaves it untouched when absent. -/
def getValueForKey (v : Option Bool) (target : Bool) : Bool :=
  v.getD target

/-- `JsonUtils::SetValueForKey` applied to every generated field in
`_write`: serializes all three fields into a root object (every key
present). -/
def serializeFields (st : state_t) : JsonRoot :=
  ⟨some st.CloseAllTabsWarningDismissed, some st.LargePasteWarningDismissed,
    some st.MultiLinePasteWarningDismissed⟩

/-- What `ReadUTF8FileIfExists(_path)` can observe in the backing file when
it exists: an empty file, content that fails JSON parsing, content the
reader cannot obtain (an I/O error raised while reading, swallowed by the
caller's `CATCH_LOG()`), or well-formed JSON with a root object. -/
inductive FileContent : Type where
  | emptyFile : FileContent
  | malformed : FileContent
  | ioError : FileContent
  | jsonData (root : JsonRoot) : FileContent
deriving Repr, DecidableEq

/-- The `ApplicationState` object together with the file-system world at its
`_path`: the `til::shared_mutex<state_t> _state`, the contents of the
backing file (`none` = file absent), and the one-shot `_timer` (absolute due
time when armed). -/
structure ApplicationState : Type where
  state : state_t
  file : Option FileContent
  timerDue : Option Nat
deriving Repr, DecidableEq

/-- `ApplicationState::_read()`: `ReadUTF8FileIfExists(_path).value_or("")`;
returns early when absent or empty; a read error or a JSON parse failure
raises, and the surrounding `try/CATCH_LOG()` swallows it; on success each
generated field is updated from its key via `GetValueForKey`. Only the
fields are touched — never `_writeScheduled`, the timer or the file. -/
def ApplicationState.readState (s : ApplicationState) : ApplicationState :=
  match s.file with
  | none => s
  | some FileContent.emptyFile => s
  | some FileContent.ioError => s
  | some FileContent.malformed => s
  | some (FileContent.jsonData root) =>
    { s with state :=
      { s.state with
        CloseAllTabsWarningDismissed :=
          getValueForKey root.closeAllTabsWarningDismissedKey
            s.state.CloseAllTabsWarningDismissed
        LargePasteWarningDismissed :=
          getValueForKey root.largePasteWarningDismissedKey
            s.state.LargePasteWarningDismissed
        MultiLinePasteWarningDismissed :=
          getValueForKey root.multiLinePasteWarningDismissedKey
            s.state.MultiLinePasteWarningDismissed } }

/-- `ApplicationState::Reload()`: `_read()`. -/
def ApplicationState.Reload (s : ApplicationState) : ApplicationState :=
  s.readState

/-- `ApplicationState::ApplicationState(path)`: timer created but not armed,
`_state` default-constructed, then `_read()`. -/
def ApplicationState.construct (file : Option FileContent) : ApplicationState :=
  ApplicationState.readState ⟨state_t.default, file, none⟩

/-- The 1-second relative due time `_synchronize` passes to
`SetThreadpoolTimerEx` (FILETIME is measured in 100ns increments). -/
def oneSecondDue : Nat := 10000000

/-- `ApplicationState::_synchronize()` called at wall time `t`: arms the
one-shot timer to fire one second later. -/
def ApplicationState.synchronize (s : ApplicationState) (t : Nat) :
    ApplicationState :=
  { s with timerDue := some (t + oneSecondDue) }

/-- The generated setter `void ApplicationState::name(const type& value)`
called at wall time `t`: under the exclusive lock stores the value and
performs `writeScheduled = std::exchange(state->_writeScheduled, true)`;
after releasing the lock calls `_synchronize()` when the exchanged flag was
`false`. -/
def ApplicationState.setField (s : ApplicationState) (t : Nat) (f : FieldName)
    (v : Bool) : ApplicationState :=
  let writeScheduled := s.state.writeScheduled
  let s1 : ApplicationState :=
    { s with state := { s.state.setName f v with writeScheduled := true } }
  if writeScheduled then s1 else s1.synchronize t

/-- The first half of `ApplicationState::_write()`: under the exclusive lock
sets `_writeScheduled` to `false` and serializes every generated field into
the root object. Returns the updated object and the serialized root (the
snapshot taken while the lock was held). -/
def ApplicationState.writeBegin (s : ApplicationState) :
    ApplicationState × JsonRoot :=
  let st := { s.state with writeScheduled := false }
  ({ s with state := st }, serializeFields st)

/-- The second half of `ApplicationState::_write()`, after the lock is
released: `Json::writeString` plus `WriteUTF8FileAtomic(_path, content)` —
atomically replaces the backing file with the serialized snapshot. -/
def ApplicationState.writeEnd (s : ApplicationState) (root : JsonRoot) :
    ApplicationState :=
  { s with file := some (FileContent.jsonData root) }

/-- `ApplicationState::_write()`: the two halves in sequence. -/
def ApplicationState.write (s : ApplicationState) : ApplicationState :=
  let p := s.writeBegin
  p.1.writeEnd p.2

/-- One step against an `ApplicationState`: a setter call from some thread,
or the armed timer firing (`_synchronizeCallback`, which runs `_write()`;
the one-shot timer is no longer armed once its callback runs). -/
inductive AppEvent : Type where
  | set (t : Nat) (f : FieldName) (v : Bool) : AppEvent
  | timerFire : AppEvent

/-- Apply one step. The timer only fires while armed. -/
def ApplicationState.step (s : ApplicationState) : AppEvent → ApplicationState
  | AppEvent.set t f v => s.setField t f v
  | AppEvent.timerFire =>
    if s.timerDue.isSome then ApplicationState.write { s with timerDue := none }
    else s

/-- Apply a whole history of setter calls and timer firings. -/
def ApplicationState.run (s : ApplicationState) (es : List AppEvent) :
    ApplicationState :=
  es.foldl ApplicationState.step s

/-- `ApplicationState::~ApplicationState()`: `_timer.reset()` cancels the
pending timer or waits for an in-progress callback, then if
`_writeScheduled` is still `true` performs one last `_write()`. -/
def ApplicationState.destruct (s : ApplicationState) : ApplicationState :=
  let s1 : ApplicationState := { s with timerDue := none }
  if s1.state.writeScheduled then s1.write else s1

/-- The backing file holds exactly the serialization of the current
in-memory fields. -/
def fileReflects (s : ApplicationState) : Prop :=
  s.file = some (FileContent.jsonData (serializeFields s.state))

/-- The durability invariant: either a write is still owed
(`_writeScheduled`), or the backing file already reflects the in-memory
fields. -/
def writeOwedInv (s : ApplicationState) : Prop :=
  s.state.writeScheduled = true ∨ fileReflects s

end TerminalSettingsModel

namespace til

/-! Helper lemmas about the trailing-mode `throttled_func`. -/

/-- A submit always leaves exactly the new arguments buffered. -/
theorem submit_storage (tf : throttled_func α) (t : Nat) (a : α) :
    (tf.submit t a).storage = ⟨some a⟩ := by
  cases h : tf.storage.pendingRunArgs.isSome <;>
    simp [throttled_func.submit, throttled_func_storage.emplace, h]

/-- A submit that finds arguments already buffered leaves the timer alone. -/
theorem submit_timerDue_of_isSome (tf : throttled_func α) (t : Nat) (a : α)
    (h : tf.storage.pendingRunArgs.isSome = true) :
    (tf.submit t a).timerDue = tf.timerDue := by
  unfold throttled_func.submit throttled_func_storage.emplace
  simp [h]

/-- A submit never changes the configured delay. -/
theorem submit_delay (tf : throttled_func α) (t : Nat) (a : α) :
    (tf.submit t a).delay = tf.delay := by
  cases h : tf.storage.pendingRunArgs.isSome <;>
    simp [throttled_func.submit, throttled_func_storage.emplace, h]

/-- Folding further submits over a state with a buffered tuple keeps the
timer due time unchanged. -/
theorem foldl_submit_timerDue (rest : List (Nat × α)) :
    ∀ (tf : throttled_func α), tf.storage.pendingRunArgs.isSome = true →
      (rest.foldl (fun acc p => acc.submit p.1 p.2) tf).timerDue = tf.timerDue := by
  induction rest with
  | nil => intro tf _; rfl
  | cons p rest ih =>
    intro tf h
    have hs : (tf.submit p.1 p.2).storage = ⟨some p.2⟩ := submit_storage tf p.1 p.2
    have h2 : (tf.submit p.1 p.2).storage.pendingRunArgs.isSome = true := by
      rw [hs]; rfl
    calc (rest.foldl (fun acc q => acc.submit q.1 q.2) (tf.submit p.1 p.2)).timerDue
        = (tf.submit p.1 p.2).timerDue := ih _ h2
      _ = tf.timerDue := submit_timerDue_of_isSome tf p.1 p.2 h

/-- Claim C3: a submit that finds arguments already buffered does not re-arm
or reset the timer (only a submit that finds the slot empty arms a new
deferred execution), and any number of further submits after the first
submit of a window leave the fire time at `initial_submit_time + delay`. -/
theorem throttled_func_no_timer_extension :
    (∀ (tf : throttled_func α) (t : Nat) (a : α),
      tf.storage.pendingRunArgs.isSome = true →
        (tf.submit t a).timerDue = tf.timerDue) ∧
    (∀ (tf : throttled_func α) (t : Nat) (a : α),
      tf.storage.pendingRunArgs.isSome = false →
        (tf.submit t a).timerDue = some (t + tf.delay)) ∧
    (∀ (delay t0 : Nat) (a0 : α) (rest : List (Nat × α)),
      (rest.foldl (fun acc p => acc.submit p.1 p.2)
          ((throttled_func.init delay).submit t0 a0)).timerDue
        = some (t0 + delay)) := by
  refine ⟨fun tf t a h => submit_timerDue_of_isSome tf t a h, ?_, ?_⟩
  · intro tf t a h
    unfold throttled_func.submit throttled_func_storage.emplace
    simp [h]
  · intro delay t0 a0 rest
    have h0 : (((throttled_func.init delay : throttled_func α)).submit t0 a0).storage
        = ⟨some a0⟩ := submit_storage _ t0 a0
    have h1 : (((throttled_func.init delay : throttled_func α)).submit t0 a0).storage.pendingRunArgs.isSome = true := by
      rw [h0]; rfl
    rw [foldl_submit_timerDue rest _ h1]
    rfl

/-- Witness for C3 at concrete inputs: a second and third submit inside the
armed window leave the fire time at the first submit time plus the delay. -/
theorem throttled_func_no_timer_extension_witness :
    (([(7, 20), (9, 30)] : List (Nat × Nat)).foldl (fun acc p => acc.submit p.1 p.2)
        ((throttled_func.init 4).submit 5 10)).timerDue = some (5 + 4) :=
  (throttled_func_no_timer_extension (α := Nat)).2.2 4 5 10 [(7, 20), (9, 30)]

/-- Claim C5: in trailing mode the timer callback extracts the buffered
tuple (leaving the slot empty) and invokes the wrapped function with exactly
those arguments; with an empty slot at fire time the wrapped function is not
invoked and the state is otherwise unchanged. -/
theorem trailing_timer_callback_spec (tf : throttled_func α) :
    (∀ a, tf.storage.pendingRunArgs = some a →
      tf.timerCallback = ⟨tf.delay, ⟨none⟩, none, tf.calls ++ [a]⟩) ∧
    (tf.storage.pendingRunArgs = none →
      tf.timerCallback = ⟨tf.delay, ⟨none⟩, none, tf.calls⟩) := by
  constructor
  · intro a h
    unfold throttled_func.timerCallback throttled_func_storage.extract
    rw [h]
  · intro h
    unfold throttled_func.timerCallback throttled_func_storage.extract
    rw [h]

/-- Witness for C5: a concrete fire with a buffered argument invokes the
function with it, and a concrete fire on an empty slot invokes nothing. -/
theorem trailing_timer_callback_spec_witness :
    ((⟨3, ⟨some 11⟩, some 8, []⟩ : throttled_func Nat).timerCallback
      = ⟨3, ⟨none⟩, none, [11]⟩) ∧
    ((⟨3, ⟨none⟩, some 8, [4]⟩ : throttled_func Nat).timerCallback
      = ⟨3, ⟨none⟩, none, [4]⟩) :=
  ⟨(trailing_timer_callback_spec ⟨3, ⟨some 11⟩, some 8, []⟩).1 11 rfl,
    (trailing_timer_callback_spec ⟨3, ⟨none⟩, some 8, [4]⟩).2 rfl⟩

/-- Claim C6: at most one argument tuple is ever buffered, and a submit
overwrites the slot with the new arguments (last-writer-wins), never
queueing a second tuple: the resulting storage holds the new tuple and
nothing else, whatever interleaving of submits, modifies and fires led to
the current state. -/
theorem throttled_func_single_slot (tf : throttled_func α) :
    (∀ (t : Nat) (a : α), (tf.submit t a).storage = ⟨some a⟩) ∧
    (∀ ops : List (TfOp α),
      ((tf.run ops).storage.pendingRunArgs.toList).length ≤ 1) := by
  constructor
  · intro t a; exact submit_storage tf t a
  · intro ops
    cases h : (tf.run ops).storage.pendingRunArgs <;> simp [h]

/-- Claim C7: `modify_pending` rewrites the buffered arguments in place when
a request is buffered (so the eventual invocation uses the modified
arguments) and is a no-op — never calling the mutator — when nothing is
buffered, in particular right after the callback has extracted the
arguments. -/
theorem modify_pending_spec (tf : throttled_func α) (f : α → α) :
    (∀ a, tf.storage.pendingRunArgs = some a →
      (tf.modifyPending f).storage.pendingRunArgs = some (f a) ∧
      (tf.modifyPending f).timerDue = tf.timerDue ∧
      (tf.modifyPending f).calls = tf.calls ∧
      ((tf.modifyPending f).timerCallback).calls = tf.calls ++ [f a]) ∧
    (tf.storage.pendingRunArgs = none →
      tf.modifyPending f = tf ∧ ∀ g : α → α, tf.modifyPending f = tf.modifyPending g) ∧
    (∀ g : α → α, (tf.timerCallback).modifyPending g = tf.timerCallback) := by
  refine ⟨?_, ?_, ?_⟩
  · intro a h
    unfold throttled_func.modifyPending throttled_func_storage.modify_pending
    rw [h]
    refine ⟨rfl, rfl, rfl, ?_⟩
    unfold throttled_func.timerCallback throttled_func_storage.extract
    rfl
  · intro h
    unfold throttled_func.modifyPending throttled_func_storage.modify_pending
    rw [h]
    exact ⟨rfl, fun g => rfl⟩
  · intro g
    unfold throttled_func.timerCallback throttled_func_storage.extract
    cases tf.storage.pendingRunArgs <;> rfl

/-- Witness for C7: modifying a concrete buffered argument doubles it before
the fire, and modifying after the fire changes nothing. -/
theorem modify_pending_spec_witness :
    ((((⟨2, ⟨some 5⟩, some 6, []⟩ : throttled_func Nat).modifyPending
        (fun x => x + x)).timerCallback).calls = [10]) ∧
    (((⟨2, ⟨none⟩, some 6, []⟩ : throttled_func Nat).modifyPending
        (fun x => x + x)) = ⟨2, ⟨none⟩, some 6, []⟩) :=
  ⟨((modify_pending_spec ⟨2, ⟨some 5⟩, some 6, []⟩ (fun x => x + x)).1 5 rfl).2.2.2,
    ((modify_pending_spec ⟨2, ⟨none⟩, some 6, []⟩ (fun x => x + x)).2.1 rfl).1⟩

/-- Claim C9: in leading mode the wrapped operation runs immediately on the
first submit of a window (which arms the timer), the timer callback only
clears the suppression flag without invoking the operation, and a submit
during the suppression window is dropped: no invocation, no re-arm. -/
theorem leading_mode_spec (tf : throttled_func_leading) (t : Nat) :
    (tf.storage.isPending = false →
      tf.submit t = ⟨tf.delay, ⟨true⟩, some (t + tf.delay), tf.calls + 1⟩) ∧
    (tf.storage.isPending = true →
      tf.submit t = ⟨tf.delay, ⟨true⟩, tf.timerDue, tf.calls⟩) ∧
    (tf.timerCallback = ⟨tf.delay, ⟨false⟩, none, tf.calls⟩) := by
  refine ⟨?_, ?_, ?_⟩
  · intro h
    unfold throttled_func_leading.submit throttled_func_storage0.emplace
    simp [h]
  · intro h
    unfold throttled_func_leading.submit throttled_func_storage0.emplace
    simp [h]
  · unfold throttled_func_leading.timerCallback throttled_func_storage0.reset
    rfl

/-- Witness for C9: from idle, a concrete submit invokes the operation at
once and arms the timer; a submit during suppression is dropped. -/
theorem leading_mode_spec_witness :
    ((throttled_func_leading.init 4).submit 2 = ⟨4, ⟨true⟩, some (2 + 4), 1⟩) ∧
    (((⟨4, ⟨true⟩, some 6, 1⟩ : throttled_func_leading)).submit 3
      = ⟨4, ⟨true⟩, some 6, 1⟩) :=
  ⟨(leading_mode_spec (throttled_func_leading.init 4) 2).1 rfl,
    (leading_mode_spec ⟨4, ⟨true⟩, some 6, 1⟩ 3).2.1 rfl⟩

end til

namespace TerminalSettingsModel

/-- Counterexample to claim C1 as stated: a store whose
`CloseAllTabsWarningDismissed` was mutated to `true` and whose backing file
is absent does not end up with its fields at their documented defaults after
`Reload()` — the early return leaves the mutated value in place. -/
theorem reload_defaults_counterexample :
    ¬ ((ApplicationState.Reload ⟨⟨true, false, false, false⟩, none, none⟩).state.fieldsOf
        = state_t.default.fieldsOf) := by
  decide

/-- Claim C1 as amended: on every failure condition of the backing file
(absent, empty, I/O error while reading, malformed content), `Reload()`
surfaces no error and returns with the whole store unchanged — so a store
whose fields are still at their defaults (in particular one being freshly
constructed over such a file) ends with every field at its documented
default. -/
theorem reload_failure_spec :
    (∀ s : ApplicationState,
      s.file = none ∨ s.file = some FileContent.emptyFile ∨
        s.file = some FileContent.ioError ∨ s.file = some FileContent.malformed →
      s.Reload = s) ∧
    (∀ c : Option FileContent,
      c = none ∨ c = some FileContent.emptyFile ∨
        c = some FileContent.ioError ∨ c = some FileContent.malformed →
      (ApplicationState.construct c).state = state_t.default) := by
  constructor
  · intro s h
    rcases h with h | h | h | h <;>
      simp [ApplicationState.Reload, ApplicationState.readState, h]
  · intro c h
    rcases h with h | h | h | h <;>
      simp [ApplicationState.construct, ApplicationState.readState, h]

/-- Witness for the amended C1: a mutated store over a malformed file is
unchanged by `Reload()`, and constructing over an absent file yields the
defaults. -/
theorem reload_failure_spec_witness :
    (ApplicationState.Reload ⟨⟨true, true, false, true⟩, some FileContent.malformed, some 3⟩
      = ⟨⟨true, true, false, true⟩, some FileContent.malformed, some 3⟩) ∧
    ((ApplicationState.construct none).state = state_t.default) :=
  ⟨reload_failure_spec.1 ⟨⟨true, true, false, true⟩, some FileContent.malformed, some 3⟩
      (Or.inr (Or.inr (Or.inr rfl))),
    reload_failure_spec.2 none (Or.inl rfl)⟩

/-- Claim C10: when the backing file is absent or empty, `Reload()` returns
early and leaves the entire store unchanged — every in-memory field and the
`_writeScheduled` flag keep their current values; nothing is reset to a
default. -/
theorem reload_absent_or_empty_frame :
    ∀ s : ApplicationState,
      s.file = none ∨ s.file = some FileContent.emptyFile →
      s.Reload.state = s.state ∧ s.Reload = s := by
  intro s h
  rcases h with h | h <;>
    simp [ApplicationState.Reload, ApplicationState.readState, h]

/-- Witness for C10: a store with mutated fields and a scheduled write over
an empty backing file is untouched by `Reload()`. -/
theorem reload_absent_or_empty_frame_witness :
    (ApplicationState.Reload ⟨⟨true, false, true, true⟩, some FileContent.emptyFile, some 9⟩).state
      = ⟨true, false, true, true⟩ ∧
    ApplicationState.Reload ⟨⟨true, false, true, true⟩, some FileContent.emptyFile, some 9⟩
      = ⟨⟨true, false, true, true⟩, some FileContent.emptyFile, some 9⟩ :=
  reload_absent_or_empty_frame ⟨⟨true, false, true, true⟩, some FileContent.emptyFile, some 9⟩
    (Or.inr rfl)

/-- Claim C8: `_write` serializes every field, and `_read` of the written
file restores exactly those values: a save followed by a reload on an
otherwise-untouched store yields field values identical to those before the
save, for every valuation of the three boolean fields. -/
theorem write_reload_roundtrip :
    ∀ s : ApplicationState, ((s.write).Reload).state.fieldsOf = s.state.fieldsOf := by
  intro s
  rfl

/-- Claim C4: the `_writeScheduled` flag follows the documented state
machine: a setter finding the flag `false` sets it and arms the 1-second
timer; a setter finding it `true` leaves the timer alone; `_write` clears
the flag before the fields are serialized (the snapshot is taken at begin);
and a mutation arriving between the serialization and the completion of the
file write leaves the flag set with a new timer armed, while the file holds
the pre-mutation snapshot. -/
theorem write_scheduled_state_machine
    (s : ApplicationState) (t : Nat) (f : FieldName) (v : Bool) :
    (s.state.writeScheduled = false →
      (s.setField t f v).state.writeScheduled = true ∧
      (s.setField t f v).timerDue = some (t + oneSecondDue)) ∧
    (s.state.writeScheduled = true →
      (s.setField t f v).state.writeScheduled = true ∧
      (s.setField t f v).timerDue = s.timerDue) ∧
    ((s.writeBegin).1.state.writeScheduled = false ∧
      (s.writeBegin).2 = serializeFields s.state) ∧
    (((s.writeBegin).1.setField t f v).writeEnd (s.writeBegin).2
        = ⟨{ s.state.setName f v with writeScheduled := true },
            some (FileContent.jsonData (serializeFields s.state)),
            some (t + oneSecondDue)⟩) := by
  refine ⟨?_, ?_, ⟨rfl, rfl⟩, ?_⟩
  · intro h
    simp [ApplicationState.setField, ApplicationState.synchronize, h]
  · intro h
    simp [ApplicationState.setField, ApplicationState.synchronize, h]
  · cases f <;>
      simp [ApplicationState.writeBegin, ApplicationState.writeEnd,
        ApplicationState.setField, ApplicationState.synchronize, serializeFields,
        state_t.setName]

/-- Witness for C4: from an idle concrete store a setter schedules the
write; from a scheduled one it does not re-arm; and a mutation interleaved
inside a concrete `_write` leaves a new write owed while the file holds the
pre-mutation value. -/
theorem write_scheduled_state_machine_witness :
    ((ApplicationState.setField ⟨⟨false, false, false, false⟩, none, none⟩ 2
        FieldName.closeAllTabsWarningDismissed true).state.writeScheduled = true ∧
      (ApplicationState.setField ⟨⟨false, false, false, false⟩, none, none⟩ 2
        FieldName.closeAllTabsWarningDismissed true).timerDue = some (2 + oneSecondDue)) ∧
    ((ApplicationState.setField ⟨⟨false, false, false, true⟩, none, some 5⟩ 2
        FieldName.largePasteWarningDismissed true).state.writeScheduled = true ∧
      (ApplicationState.setField ⟨⟨false, false, false, true⟩, none, some 5⟩ 2
        FieldName.largePasteWarningDismissed true).timerDue = some 5) :=
  ⟨(write_scheduled_state_machine ⟨⟨false, false, false, false⟩, none, none⟩ 2
      FieldName.closeAllTabsWarningDismissed true).1 rfl,
    (write_scheduled_state_machine ⟨⟨false, false, false, true⟩, none, some 5⟩ 2
      FieldName.largePasteWarningDismissed true).2.1 rfl⟩

end TerminalSettingsModel

namespace TerminalSettingsModel

/-! Helper lemmas for the destructor durability claim. -/

/-- A setter always leaves `_writeScheduled` set. -/
theorem setField_writeScheduled (s : ApplicationState) (t : Nat) (f : FieldName)
    (v : Bool) : (s.setField t f v).state.writeScheduled = true := by
  cases h : s.state.writeScheduled <;>
    simp [ApplicationState.setField, ApplicationState.synchronize, h]

/-- After `_write()` the backing file reflects the in-memory fields. -/
theorem write_fileReflects (s : ApplicationState) : fileReflects s.write :=
  rfl

/-- Every step preserves the durability invariant. -/
theorem step_writeOwedInv (s : ApplicationState) (e : AppEvent)
    (h : writeOwedInv s) : writeOwedInv (s.step e) := by
  cases e with
  | set t f v => exact Or.inl (setField_writeScheduled s t f v)
  | timerFire =>
    simp only [ApplicationState.step]
    split
    · exact Or.inr (write_fileReflects _)
    · exact h

/-- A whole run preserves the durability invariant. -/
theorem run_writeOwedInv (es : List AppEvent) :
    ∀ s : ApplicationState, writeOwedInv s → writeOwedInv (s.run es) := by
  induction es with
  | nil => intro s h; exact h
  | cons e es ih => intro s h; exact ih (s.step e) (step_writeOwedInv s e h)

/-- Under the invariant, destruction leaves a file reflecting the fields. -/
theorem destruct_fileReflects (s : ApplicationState) (h : writeOwedInv s) :
    fileReflects s.destruct := by
  unfold ApplicationState.destruct
  cases hw : s.state.writeScheduled with
  | true =>
    simp only [hw, if_true]
    exact write_fileReflects _
  | false =>
    simp only [hw, if_false, Bool.false_eq_true]
    rcases h with h | h
    · rw [hw] at h; exact absurd h (by simp)
    · exact h

/-- Destruction never changes the three field values. -/
theorem destruct_fieldsOf (s : ApplicationState) :
    s.destruct.state.fieldsOf = s.state.fieldsOf := by
  unfold ApplicationState.destruct
  cases hw : s.state.writeScheduled <;>
    simp [hw, ApplicationState.write, ApplicationState.writeBegin,
      ApplicationState.writeEnd, state_t.fieldsOf]

/-- Constructing over a file that serializes a state restores its fields. -/
theorem construct_serialized (st : state_t) :
    (ApplicationState.construct
        (some (FileContent.jsonData (serializeFields st)))).state.fieldsOf
      = st.fieldsOf :=
  rfl

/-- Claim C2: if a setter call occurs somewhere in the store's history, then
after the destructor returns, the backing file reflects the final field
values: reconstructing a fresh store over the file left behind by the
destructor restores exactly the fields the destroyed store last held. The
destructor first cancels/awaits the timer and, when a write is still owed,
performs one final synchronous `_write()`. -/
theorem destructor_flushes_last_write (c : Option FileContent)
    (es l1 l2 : List AppEvent) (t : Nat) (f : FieldName) (v : Bool)
    (h : es = l1 ++ AppEvent.set t f v :: l2) :
    (ApplicationState.construct
        ((((ApplicationState.construct c).run es).destruct).file)).state.fieldsOf
      = ((ApplicationState.construct c).run es).state.fieldsOf := by
  subst h
  have hrun : (ApplicationState.construct c).run (l1 ++ AppEvent.set t f v :: l2)
      = ((((ApplicationState.construct c).run l1).step (AppEvent.set t f v)).run l2) := by
    simp [ApplicationState.run, List.foldl_append]
  have hinv : writeOwedInv
      ((ApplicationState.construct c).run (l1 ++ AppEvent.set t f v :: l2)) := by
    rw [hrun]
    exact run_writeOwedInv l2 _
      (Or.inl (setField_writeScheduled ((ApplicationState.construct c).run l1) t f v))
  have hfile := destruct_fileReflects _ hinv
  rw [show ((((ApplicationState.construct c).run
        (l1 ++ AppEvent.set t f v :: l2)).destruct).file)
      = some (FileContent.jsonData (serializeFields
          ((((ApplicationState.construct c).run
            (l1 ++ AppEvent.set t f v :: l2)).destruct).state))) from hfile]
  rw [construct_serialized]
  exact destruct_fieldsOf _

/-- Witness for C2: a concrete store over an absent file receives one setter
call and is destroyed; reconstructing over the file the destructor wrote
restores the mutated field. -/
theorem destructor_flushes_last_write_witness :
    (ApplicationState.construct
        ((((ApplicationState.construct none).run
            [AppEvent.set 0 FieldName.closeAllTabsWarningDismissed true]).destruct).file)).state.fieldsOf
      = ((ApplicationState.construct none).run
          [AppEvent.set 0 FieldName.closeAllTabsWarningDismissed true]).state.fieldsOf :=
  destructor_flushes_last_write none
    [AppEvent.set 0 FieldName.closeAllTabsWarningDismissed true] [] [] 0
    FieldName.closeAllTabsWarningDismissed true rfl

end TerminalSettingsModel
